import Mathlib

/-!
Shallow embedding of the SentraAI chat page (src/unnamed/part_000).

The page is a single React component: a `ChatInput` control whose
`handleKeyDown` / `handleSubmit` decide when to fire `onSend`, and a
`ChatPage` controller whose `handleSend` appends the user message, clears
the input, sets the loading flag, issues one POST and, on the reply,
appends either the server text (success) or a fixed fallback message
(failure), finally clearing the loading flag.

State fields mirror the React hooks: `messages` (useState), `input`
(useState), `isLoading` (useState), `threadId` (useRef, a JS value that
starts as null and is overwritten with whatever `data.thread_id` holds,
possibly undefined). The network is modelled as an explicit `FetchResult`
the environment supplies to `handleSend`.
-/

inductive Sender where
  | user
  | ai
  deriving DecidableEq, Repr

structure Message where
  text : String
  sender : Sender
  deriving DecidableEq, Repr

/-- A JavaScript value as far as the thread identifier can observe one:
`null` (the initial ref value), `undefined` (a missing JSON field read off
an object), or a string. -/
inductive JsVal where
  | null
  | undef
  | str (s : String)
  deriving DecidableEq, Repr

/-- The parsed JSON body of a 2xx reply: `data.response` is a string when
present (`none` models an absent field), `data.thread_id` is whatever JS
value the body holds (`JsVal.undef` models an absent field). -/
structure RespBody where
  response : Option String
  thread_id : JsVal
  deriving DecidableEq, Repr

/-- Outcome of the `fetch` call: a transport-level rejection, or an HTTP
response with its `ok` flag (2xx) and, when 2xx, the result of
`response.json()` (`none` models a body that fails to parse). -/
inductive FetchResult where
  | transportError
  | httpResponse (ok : Bool) (body : Option RespBody)
  deriving DecidableEq, Repr

/-- The object handed to `JSON.stringify` as the POST body:
`{ message: input, thread_id: threadIdRef.current }`. -/
structure ChatRequest where
  message : String
  thread_id : JsVal
  deriving DecidableEq, Repr

/-- The controller's state: the React hooks of `ChatPage` plus the
`threadIdRef` ref. -/
structure ChatState where
  messages : List Message
  input : String
  isLoading : Bool
  threadId : JsVal
  deriving DecidableEq, Repr

/-- Initial hook values: `useState([])`, `useState('')`,
`useState(false)`, `useRef(null)`. -/
def initState : ChatState :=
  { messages := [], input := "", isLoading := false, threadId := JsVal.null }

/-- The literal fallback text of the catch branch. -/
def errorText : String :=
  "Sorry, I couldn't connect to the server. Please try again later."

/-- JavaScript's `String.prototype.trim()`: strip whitespace from both
ends. Written over the character list so that it evaluates inside the
kernel. -/
def jsTrim (s : String) : String :=
  String.mk (((s.data.dropWhile Char.isWhitespace).reverse.dropWhile
    Char.isWhitespace).reverse)

/-- JS truthiness of `data.response` restricted to string-or-absent values:
an absent field is falsy, a string is truthy exactly when non-empty. -/
def jsTruthy : Option String → Bool
  | none => false
  | some s => !(s == "")

/-- `handleSend`, given the outcome the awaited `fetch` resolves to.
Mirrors the source line by line: the `if (!input.trim()) return` guard,
the user-message append + `setInput('')` + `setIsLoading(true)` prefix,
then the try/catch over the response, and the `finally` clearing the
loading flag. The request body is built from the captured `input`
variable, so the raw (uncleared) text is what is sent. -/
def handleSend (s : ChatState) (r : FetchResult) : ChatState :=
  if jsTrim s.input = "" then s
  else
    let s1 : ChatState :=
      { s with
          messages := s.messages ++ [{ text := s.input, sender := Sender.user }]
          input := ""
          isLoading := true }
    let s2 : ChatState :=
      match r with
      | FetchResult.transportError =>
          { s1 with messages := s1.messages ++ [{ text := errorText, sender := Sender.ai }] }
      | FetchResult.httpResponse ok body =>
          if ok = false then
            { s1 with messages := s1.messages ++ [{ text := errorText, sender := Sender.ai }] }
          else
            match body with
            | none =>
                { s1 with messages := s1.messages ++ [{ text := errorText, sender := Sender.ai }] }
            | some data =>
                if jsTruthy data.response then
                  { s1 with
                      messages := s1.messages ++
                        [{ text := data.response.getD "", sender := Sender.ai }]
                      threadId := data.thread_id }
                else
                  { s1 with messages := s1.messages ++ [{ text := errorText, sender := Sender.ai }] }
    { s2 with isLoading := false }

/-- The POST body `handleSend` issues, `none` when the guard returns before
the fetch. -/
def handleSendRequest (s : ChatState) : Option ChatRequest :=
  if jsTrim s.input = "" then none
  else some { message := s.input, thread_id := s.threadId }

/-- A keyboard event as `ChatInput.handleKeyDown` reads it. -/
structure KeyEvent where
  key : String
  shiftKey : Bool
  deriving DecidableEq, Repr

/-- Whether `ChatInput.handleKeyDown` calls `onSend`: the key is Enter
without shift, and then `!isLoading && value.trim()`. -/
def handleKeyDown (isLoading : Bool) (value : String) (e : KeyEvent) : Bool :=
  if e.key == "Enter" && !e.shiftKey then
    !isLoading && !(jsTrim value == "")
  else
    false

/-- Whether `ChatInput.handleSubmit` (the form submit / button click)
calls `onSend`: `!isLoading && value.trim()`. -/
def handleSubmit (isLoading : Bool) (value : String) : Bool :=
  !isLoading && !(jsTrim value == "")

/-- A submission attempt through a keypress: `handleSend` runs exactly
when `handleKeyDown` fires `onSend`. -/
def attemptViaKey (s : ChatState) (e : KeyEvent) (r : FetchResult) : ChatState :=
  if handleKeyDown s.isLoading s.input e then handleSend s r else s

/-- A submission attempt through the submit button / form: `handleSend`
runs exactly when `handleSubmit` fires `onSend`. -/
def attemptViaClick (s : ChatState) (r : FetchResult) : ChatState :=
  if handleSubmit s.isLoading s.input then handleSend s r else s

/-- The request a keypress attempt puts on the wire, if any. -/
def requestViaKey (s : ChatState) (e : KeyEvent) : Option ChatRequest :=
  if handleKeyDown s.isLoading s.input e then handleSendRequest s else none

/-- The request a click attempt puts on the wire, if any. -/
def requestViaClick (s : ChatState) : Option ChatRequest :=
  if handleSubmit s.isLoading s.input then handleSendRequest s else none

/-- `onChange` of the input control: replace the draft text. -/
def setInputTo (s : ChatState) (t : String) : ChatState :=
  { s with input := t }

/-- One user round trip: type a draft, submit it, receive the outcome. -/
structure Exchange where
  inp : String
  resp : FetchResult

def roundTrip (s : ChatState) (e : Exchange) : ChatState :=
  attemptViaClick (setInputTo s e.inp) e.resp

def runExchanges (s : ChatState) : List Exchange → ChatState
  | [] => s
  | e :: rest => runExchanges (roundTrip s e) rest

/-- The code's success condition: HTTP ok, a parsed body, and a truthy
`data.response`. -/
def isSuccess (r : FetchResult) : Bool :=
  match r with
  | FetchResult.httpResponse true (some data) => jsTruthy data.response
  | _ => false

/-- A valid submission answered by a successful response. -/
def validExchange (e : Exchange) : Bool :=
  !(jsTrim e.inp == "") && isSuccess e.resp

/-- The list strictly alternates sender in user/ai pairs (so it also has
even length and starts with a user message when non-empty). -/
def userAiPairs : List Message → Bool
  | [] => true
  | m1 :: m2 :: rest => m1.sender == Sender.user && m2.sender == Sender.ai && userAiPairs rest
  | _ :: [] => false

/-! ## Helper lemmas -/

/-- On a guard-passing input, a failing outcome (the catch branch) appends
the user message and the fallback assistant message, clears the input and
the loading flag, and leaves the thread identifier alone. -/
theorem handleSend_failure_eq (s : ChatState) (r : FetchResult)
    (hin : ¬ jsTrim s.input = "") (hf : isSuccess r = false) :
    handleSend s r =
      { messages := s.messages ++
          [{ text := s.input, sender := Sender.user },
           { text := errorText, sender := Sender.ai }],
        input := "", isLoading := false, threadId := s.threadId } := by
  cases r with
  | transportError => simp [handleSend, hin]
  | httpResponse ok body =>
    cases ok with
    | false => simp [handleSend, hin]
    | true =>
      cases body with
      | none => simp [handleSend, hin]
      | some data =>
        have hF : jsTruthy data.response = false := by
          simpa [isSuccess] using hf
        simp [handleSend, hin, hF]

/-- On a guard-passing input, a successful outcome appends the user message
and the server text, stores the body's thread identifier, and clears the
input and the loading flag. -/
theorem handleSend_success_eq (s : ChatState) (data : RespBody) (t : String)
    (hin : ¬ jsTrim s.input = "") (ht : data.response = some t) (hne : ¬ t = "") :
    handleSend s (FetchResult.httpResponse true (some data)) =
      { messages := s.messages ++
          [{ text := s.input, sender := Sender.user },
           { text := t, sender := Sender.ai }],
        input := "", isLoading := false, threadId := data.thread_id } := by
  simp [handleSend, hin, jsTruthy, ht, hne]


/-! ## Concrete states used by the witnesses -/

/-- A state mid-request: one user message shown, pending, thread known. -/
def pendingState : ChatState :=
  { messages := [{ text := "hi", sender := Sender.user }], input := "again",
    isLoading := true, threadId := JsVal.str "t1" }

/-- An idle state with a non-blank draft ready to send. -/
def draftState : ChatState :=
  { messages := [], input := "Hello", isLoading := false, threadId := JsVal.null }

/-- An Enter keypress without shift. -/
def enterKey : KeyEvent := { key := "Enter", shiftKey := false }

/-- A successful reply body carrying text and a thread id. -/
def okBody : RespBody := { response := some "Hi there!", thread_id := JsVal.str "abc123" }

/-! ## Claim theorems -/

/-- C2: a submission attempt on a draft whose trimmed value is empty — via
Enter or via the submit button — leaves the controller state (message
list, pending flag, everything) unchanged and issues no request; the
controller's own guard also returns early. -/
theorem blank_submission_is_noop (s : ChatState) (e : KeyEvent) (r : FetchResult)
    (h : jsTrim s.input = "") :
    attemptViaKey s e r = s ∧ attemptViaClick s r = s ∧
    requestViaKey s e = none ∧ requestViaClick s = none ∧
    handleSend s r = s ∧ handleSendRequest s = none := by
  have hk : handleKeyDown s.isLoading s.input e = false := by
    simp [handleKeyDown, h]
  have hs : handleSubmit s.isLoading s.input = false := by
    simp [handleSubmit, h]
  refine ⟨?_, ?_, ?_, ?_, ?_, ?_⟩ <;>
    simp [attemptViaKey, attemptViaClick, requestViaKey, requestViaClick,
      handleSend, handleSendRequest, hk, hs, h]

/-- C2 witness: the whitespace-only draft "  " at the initial state. -/
theorem blank_submission_is_noop_witness :
    attemptViaKey (setInputTo initState "  ") enterKey FetchResult.transportError =
        setInputTo initState "  " ∧
    attemptViaClick (setInputTo initState "  ") FetchResult.transportError =
        setInputTo initState "  " ∧
    requestViaKey (setInputTo initState "  ") enterKey = none ∧
    requestViaClick (setInputTo initState "  ") = none ∧
    handleSend (setInputTo initState "  ") FetchResult.transportError =
        setInputTo initState "  " ∧
    handleSendRequest (setInputTo initState "  ") = none :=
  blank_submission_is_noop (setInputTo initState "  ") enterKey
    FetchResult.transportError (by decide)

/-- C3: while the pending flag is true, a submission attempt through the
input control (keypress or click) changes nothing — in particular the
message-list length and the thread identifier — and issues no request, so
a second request cannot be started. -/
theorem pending_blocks_submission (s : ChatState) (e : KeyEvent) (r : FetchResult)
    (h : s.isLoading = true) :
    attemptViaKey s e r = s ∧ attemptViaClick s r = s ∧
    requestViaKey s e = none ∧ requestViaClick s = none := by
  have hk : handleKeyDown s.isLoading s.input e = false := by
    simp [handleKeyDown, h]
  have hs : handleSubmit s.isLoading s.input = false := by
    simp [handleSubmit, h]
  exact ⟨by simp [attemptViaKey, hk], by simp [attemptViaClick, hs],
    by simp [requestViaKey, hk], by simp [requestViaClick, hs]⟩

/-- C3 witness: a pending state holding one message and a thread id. -/
theorem pending_blocks_submission_witness :
    attemptViaKey pendingState enterKey FetchResult.transportError = pendingState ∧
    attemptViaClick pendingState FetchResult.transportError = pendingState ∧
    requestViaKey pendingState enterKey = none ∧
    requestViaClick pendingState = none :=
  pending_blocks_submission pendingState enterKey FetchResult.transportError rfl

/-- C4: any failed round trip of the kinds the claim lists — transport
error, non-2xx status, or 2xx body missing the reply field — appends
exactly the user message and one assistant message holding the literal
fallback text, and the pending flag ends false. -/
theorem failed_roundtrip_appends_fallback (s : ChatState) (r : FetchResult)
    (hin : ¬ jsTrim s.input = "")
    (hf : r = FetchResult.transportError ∨
          (∃ body, r = FetchResult.httpResponse false body) ∨
          (∃ data, r = FetchResult.httpResponse true (some data) ∧
            data.response = none)) :
    (handleSend s r).messages =
      s.messages ++ [{ text := s.input, sender := Sender.user },
                     { text := errorText, sender := Sender.ai }] ∧
    (handleSend s r).isLoading = false := by
  have hS : isSuccess r = false := by
    rcases hf with h | ⟨body, h⟩ | ⟨data, h, hresp⟩
    · subst h; simp [isSuccess]
    · subst h; simp [isSuccess]
    · subst h; simp [isSuccess, jsTruthy, hresp]
  rw [handleSend_failure_eq s r hin hS]
  exact ⟨rfl, rfl⟩

/-- C4 witness: the draft "Hello" meeting a transport failure. -/
theorem failed_roundtrip_appends_fallback_witness :
    (handleSend draftState FetchResult.transportError).messages =
      [{ text := "Hello", sender := Sender.user },
       { text := errorText, sender := Sender.ai }] ∧
    (handleSend draftState FetchResult.transportError).isLoading = false :=
  failed_roundtrip_appends_fallback draftState FetchResult.transportError
    (by decide) (Or.inl rfl)

/-- C7: on any outcome that is not the code's success condition (every
failed round trip, including the claim's three kinds), the thread
identifier after `handleSend` equals its value before the request. -/
theorem failure_preserves_threadId (s : ChatState) (r : FetchResult)
    (hf : isSuccess r = false) :
    (handleSend s r).threadId = s.threadId := by
  by_cases hin : jsTrim s.input = ""
  · simp [handleSend, hin]
  · rw [handleSend_failure_eq s r hin hf]

/-- C7 witness: a transport failure from a state holding thread id "t1". -/
theorem failure_preserves_threadId_witness :
    (handleSend (setInputTo pendingState "more") FetchResult.transportError).threadId =
      JsVal.str "t1" :=
  failure_preserves_threadId (setInputTo pendingState "more")
    FetchResult.transportError rfl

/-- C5: after a successful response carrying thread_id "abc123", the
stored identifier is "abc123" and any next valid submission puts
thread_id "abc123" in its request body; from the initial state, the first
request carries thread_id null. -/
theorem threadId_echoed_next_request (s : ChatState) (data : RespBody) (t : String)
    (hin : ¬ jsTrim s.input = "") (ht : data.response = some t) (hne : ¬ t = "")
    (hid : data.thread_id = JsVal.str "abc123") :
    (handleSend s (FetchResult.httpResponse true (some data))).threadId =
      JsVal.str "abc123" ∧
    (∀ u, ¬ jsTrim u = "" →
      handleSendRequest
          (setInputTo (handleSend s (FetchResult.httpResponse true (some data))) u) =
        some { message := u, thread_id := JsVal.str "abc123" }) ∧
    (∀ u, ¬ jsTrim u = "" →
      handleSendRequest (setInputTo initState u) =
        some { message := u, thread_id := JsVal.null }) := by
  rw [handleSend_success_eq s data t hin ht hne]
  refine ⟨hid, ?_, ?_⟩
  · intro u hu
    simp [handleSendRequest, setInputTo, hu, hid]
  · intro u hu
    simp [handleSendRequest, setInputTo, initState, hu]

/-- C5 witness: the scenario of spec §8 — "Hello" answered by
`{response: "Hi there!", thread_id: "abc123"}`, then the draft "Next". -/
theorem threadId_echoed_next_request_witness :
    (handleSend draftState (FetchResult.httpResponse true (some okBody))).threadId =
      JsVal.str "abc123" ∧
    handleSendRequest
        (setInputTo (handleSend draftState (FetchResult.httpResponse true (some okBody)))
          "Next") =
      some { message := "Next", thread_id := JsVal.str "abc123" } ∧
    handleSendRequest (setInputTo initState "Next") =
      some { message := "Next", thread_id := JsVal.null } := by
  obtain ⟨h1, h2, h3⟩ :=
    threadId_echoed_next_request draftState okBody "Hi there!" (by decide) rfl
      (by decide) rfl
  exact ⟨h1, h2 "Next" (by decide), h3 "Next" (by decide)⟩

/-- C9: the appended user message and the request's `message` field both
hold the raw draft verbatim (no trim applied), whatever the outcome. -/
theorem raw_text_sent_verbatim (s : ChatState) (r : FetchResult)
    (hin : ¬ jsTrim s.input = "") :
    handleSendRequest s = some { message := s.input, thread_id := s.threadId } ∧
    ∃ m2, (handleSend s r).messages =
      s.messages ++ [{ text := s.input, sender := Sender.user }, m2] := by
  refine ⟨by simp [handleSendRequest, hin], ?_⟩
  by_cases hS : isSuccess r = true
  · rcases r with _ | ⟨ok, body⟩
    · simp [isSuccess] at hS
    · cases ok
      · simp [isSuccess] at hS
      · rcases body with _ | data
        · simp [isSuccess] at hS
        · rcases hdr : data.response with _ | t
          · rw [isSuccess] at hS
            simp [jsTruthy, hdr] at hS
          · have hne : ¬ t = "" := by
              rw [isSuccess] at hS
              simpa [jsTruthy, hdr] using hS
            exact ⟨{ text := t, sender := Sender.ai },
              by rw [handleSend_success_eq s data t hin hdr hne]⟩
  · exact ⟨{ text := errorText, sender := Sender.ai },
      by rw [handleSend_failure_eq s r hin (by simpa using hS)]⟩

/-- C9 witness: the draft " Hello " keeps its surrounding whitespace in
both the stored message and the request body. -/
theorem raw_text_sent_verbatim_witness :
    handleSendRequest (setInputTo initState " Hello ") =
      some { message := " Hello ", thread_id := JsVal.null } ∧
    ∃ m2, (handleSend (setInputTo initState " Hello ")
        FetchResult.transportError).messages =
      [{ text := " Hello ", sender := Sender.user }, m2] :=
  raw_text_sent_verbatim (setInputTo initState " Hello ")
    FetchResult.transportError (by decide)

/-- C10: the success branch stores `data.thread_id` unconditionally; when
the 2xx body has a truthy `response` but no `thread_id`, the stored value
becomes undefined and the next valid request carries that undefined value
in its `thread_id` field. -/
theorem success_overwrites_threadId (s : ChatState) (data : RespBody) (t : String)
    (hin : ¬ jsTrim s.input = "") (ht : data.response = some t) (hne : ¬ t = "") :
    (handleSend s (FetchResult.httpResponse true (some data))).threadId =
      data.thread_id ∧
    (data.thread_id = JsVal.undef → ∀ u, ¬ jsTrim u = "" →
      handleSendRequest
          (setInputTo (handleSend s (FetchResult.httpResponse true (some data))) u) =
        some { message := u, thread_id := JsVal.undef }) := by
  rw [handleSend_success_eq s data t hin ht hne]
  refine ⟨rfl, ?_⟩
  intro hid u hu
  simp [handleSendRequest, setInputTo, hu, hid]

/-- C10 witness: a 2xx body with `response: "ok"` and no `thread_id`. -/
theorem success_overwrites_threadId_witness :
    (handleSend draftState
        (FetchResult.httpResponse true
          (some { response := some "ok", thread_id := JsVal.undef }))).threadId =
      JsVal.undef ∧
    handleSendRequest
        (setInputTo
          (handleSend draftState
            (FetchResult.httpResponse true
              (some { response := some "ok", thread_id := JsVal.undef })))
          "and then") =
      some { message := "and then", thread_id := JsVal.undef } := by
  obtain ⟨h1, h2⟩ :=
    success_overwrites_threadId draftState
      { response := some "ok", thread_id := JsVal.undef } "ok" (by decide) rfl
      (by decide)
  exact ⟨h1, h2 rfl "and then" (by decide)⟩

/-- C6 counterexample: a 2xx body whose `response` field is present as a
string — the empty string — with thread_id "t9". The claim predicts the
success transition (assistant message "" appended, thread id updated to
"t9"); the code's truthiness test sends it down the failure branch
instead: the fallback text is appended and the thread id is untouched. -/
theorem empty_reply_takes_failure_branch :
    ¬ ((handleSend draftState
          (FetchResult.httpResponse true
            (some { response := some "", thread_id := JsVal.str "t9" }))).threadId =
        JsVal.str "t9") ∧
    (handleSend draftState
        (FetchResult.httpResponse true
          (some { response := some "", thread_id := JsVal.str "t9" }))).messages =
      [{ text := "Hello", sender := Sender.user },
       { text := errorText, sender := Sender.ai }] := by
  constructor <;> decide

/-- C6 amended: a 2xx response whose body carries `response` as a
non-empty string takes the success transition (assistant message with the
server text, thread id replaced, pending cleared); a 2xx response whose
`response` field is absent or is the empty string (falsy) takes the
failure transition. -/
theorem truthy_reply_is_success (s : ChatState) (data : RespBody)
    (hin : ¬ jsTrim s.input = "") :
    (∀ t, data.response = some t → ¬ t = "" →
      handleSend s (FetchResult.httpResponse true (some data)) =
        { messages := s.messages ++
            [{ text := s.input, sender := Sender.user },
             { text := t, sender := Sender.ai }],
          input := "", isLoading := false, threadId := data.thread_id }) ∧
    ((data.response = none ∨ data.response = some "") →
      handleSend s (FetchResult.httpResponse true (some data)) =
        { messages := s.messages ++
            [{ text := s.input, sender := Sender.user },
             { text := errorText, sender := Sender.ai }],
          input := "", isLoading := false, threadId := s.threadId }) := by
  constructor
  · intro t ht hne
    exact handleSend_success_eq s data t hin ht hne
  · intro hfalsy
    refine handleSend_failure_eq s (FetchResult.httpResponse true (some data)) hin ?_
    rcases hfalsy with h | h <;> simp [isSuccess, jsTruthy, h]

/-- C6 amended witness: the draft "Hello" with the reply body
`{response: "Hi there!", thread_id: "abc123"}`. -/
theorem truthy_reply_is_success_witness :
    (∀ t, okBody.response = some t → ¬ t = "" →
      handleSend draftState (FetchResult.httpResponse true (some okBody)) =
        { messages := [{ text := "Hello", sender := Sender.user },
                       { text := t, sender := Sender.ai }],
          input := "", isLoading := false, threadId := okBody.thread_id }) ∧
    ((okBody.response = none ∨ okBody.response = some "") →
      handleSend draftState (FetchResult.httpResponse true (some okBody)) =
        { messages := [{ text := "Hello", sender := Sender.user },
                       { text := errorText, sender := Sender.ai }],
          input := "", isLoading := false, threadId := JsVal.null }) :=
  truthy_reply_is_success draftState okBody (by decide)

/-- C8: a keypress fires `onSend` exactly when the key is Enter, shift is
not held, the pending flag is false and the trimmed draft is non-empty;
in particular shift+Enter never fires. -/
theorem keypress_trigger_condition (l : Bool) (v : String) (e : KeyEvent) :
    (handleKeyDown l v e = true ↔
      (e.key = "Enter" ∧ e.shiftKey = false ∧ l = false ∧ ¬ jsTrim v = "")) ∧
    (e.shiftKey = true → handleKeyDown l v e = false) := by
  obtain ⟨k, sh⟩ := e
  cases sh <;> cases l <;> simp [handleKeyDown]

/-- Appending one user/ai pair preserves the alternation invariant. -/
theorem userAiPairs_append_pair (l : List Message) (a b : Message)
    (ha : a.sender = Sender.user) (hb : b.sender = Sender.ai)
    (h : userAiPairs l = true) : userAiPairs (l ++ [a, b]) = true := by
  induction l using userAiPairs.induct with
  | case1 => simp [userAiPairs, ha, hb]
  | case2 m1 m2 rest ih =>
      simp [userAiPairs] at h ⊢
      exact ⟨h.1, ih h.2⟩
  | case3 m => simp [userAiPairs] at h

/-- A valid submission answered successfully, started while idle, appends
exactly one user message and one assistant message, ends idle, and clears
the draft. -/
theorem roundTrip_success_eq (s : ChatState) (e : Exchange)
    (hl : s.isLoading = false) (hv : validExchange e = true) :
    ∃ t tid, roundTrip s e =
      { messages := s.messages ++
          [{ text := e.inp, sender := Sender.user },
           { text := t, sender := Sender.ai }],
        input := "", isLoading := false, threadId := tid } := by
  rw [validExchange, Bool.and_eq_true] at hv
  obtain ⟨hne, hsu⟩ := hv
  have hne : ¬ jsTrim e.inp = "" := by simpa using hne
  rcases e with ⟨inp, r⟩
  rcases r with _ | ⟨ok, body⟩
  · simp [isSuccess] at hsu
  · cases ok
    · simp [isSuccess] at hsu
    · rcases body with _ | data
      · simp [isSuccess] at hsu
      · rcases hdr : data.response with _ | t
        · rw [isSuccess] at hsu
          simp [jsTruthy, hdr] at hsu
        · have ht : ¬ t = "" := by
            rw [isSuccess] at hsu
            simpa [jsTruthy, hdr] using hsu
          refine ⟨t, data.thread_id, ?_⟩
          rw [roundTrip, attemptViaClick]
          have hguard : handleSubmit (setInputTo s inp).isLoading
              (setInputTo s inp).input = true := by
            simp [handleSubmit, setInputTo, hl, hne]
          rw [if_pos hguard]
          simpa [setInputTo] using
            handleSend_success_eq (setInputTo s inp) data t (by simpa [setInputTo] using hne)
              hdr ht

/-- Invariant carried across a run of valid, successful exchanges: length
grows by two per exchange, alternation is preserved, and the controller
returns to idle. -/
theorem runExchanges_inv (l : List Exchange) :
    ∀ s : ChatState, s.isLoading = false → (∀ e ∈ l, validExchange e = true) →
      (runExchanges s l).messages.length = s.messages.length + 2 * l.length ∧
      (userAiPairs s.messages = true → userAiPairs (runExchanges s l).messages = true) ∧
      (runExchanges s l).isLoading = false := by
  induction l with
  | nil =>
      intro s hl _
      exact ⟨by simp [runExchanges], fun h => by simpa [runExchanges] using h, by
        simpa [runExchanges] using hl⟩
  | cons e rest ih =>
      intro s hl hv
      obtain ⟨t, tid, heq⟩ := roundTrip_success_eq s e hl (hv e (by simp))
      have hrest := ih (roundTrip s e) (by rw [heq])
        (fun x hx => hv x (by simp [hx]))
      rw [runExchanges]
      refine ⟨?_, ?_, hrest.2.2⟩
      · rw [hrest.1, heq]
        simp
        ring
      · intro hua
        apply hrest.2.1
        rw [heq]
        exact userAiPairs_append_pair s.messages _ _ rfl rfl hua

/-- C1: running any sequence of valid submissions, each answered
successfully, from the initial state yields a message list of length 2N
that strictly alternates sender in user/ai pairs. -/
theorem alternating_transcript (l : List Exchange)
    (hv : ∀ e ∈ l, validExchange e = true) :
    (runExchanges initState l).messages.length = 2 * l.length ∧
    userAiPairs (runExchanges initState l).messages = true := by
  obtain ⟨h1, h2, _⟩ := runExchanges_inv l initState rfl hv
  exact ⟨by simpa [initState] using h1, h2 (by simp [initState, userAiPairs])⟩

/-- C1 witness: two valid exchanges produce a 4-message alternating
transcript. -/
theorem alternating_transcript_witness :
    (runExchanges initState
        [{ inp := "Hello", resp := FetchResult.httpResponse true (some okBody) },
         { inp := "More", resp := FetchResult.httpResponse true (some okBody) }]).messages.length =
      2 * 2 ∧
    userAiPairs
        (runExchanges initState
          [{ inp := "Hello", resp := FetchResult.httpResponse true (some okBody) },
           { inp := "More", resp := FetchResult.httpResponse true (some okBody) }]).messages =
      true :=
  alternating_transcript
    [{ inp := "Hello", resp := FetchResult.httpResponse true (some okBody) },
     { inp := "More", resp := FetchResult.httpResponse true (some okBody) }]
    (by decide)
